import Mathlib

/-!
Verification of the server-side core of the libssh SSH2 engine
(`src/server.c`) against its natural-language specification.

The C code is shallowly embedded: the mutable `ssh_session` / `ssh_bind`
structs become Lean records, in-place mutation becomes explicit state
passing, and the external collaborators (crypto primitives, packet I/O,
key loading, `malloc`/`strdup` success) become oracle records supplying
the outcome of each external call.  Machine integers that matter here are
small counters and message codes, modelled as `Nat`/`Int`.
-/

namespace Libssh

/-- Return code `SSH_OK` (0). -/
def SSH_OK : Int := 0

/-- Return code `SSH_ERROR` (-1). -/
def SSH_ERROR : Int := -1

/-- Return code `SSH_PACKET_USED` (1), returned by packet callbacks. -/
def SSH_PACKET_USED : Int := 1

/-- SSH2 message code `SSH2_MSG_NEWKEYS` (21). -/
def SSH2_MSG_NEWKEYS : Nat := 21

/-- SSH2 message code `SSH2_MSG_KEXDH_REPLY` (31). -/
def SSH2_MSG_KEXDH_REPLY : Nat := 31

/-- SSH2 message code `SSH2_MSG_USERAUTH_FAILURE` (51). -/
def SSH2_MSG_USERAUTH_FAILURE : Nat := 51

/-- SSH2 message code `SSH2_MSG_CHANNEL_FAILURE` (100). -/
def SSH2_MSG_CHANNEL_FAILURE : Nat := 100

/-- Auth method bit `SSH_AUTH_METHOD_PASSWORD` (0x0002). -/
def SSH_AUTH_METHOD_PASSWORD : Nat := 2

/-- Auth method bit `SSH_AUTH_METHOD_PUBLICKEY` (0x0004). -/
def SSH_AUTH_METHOD_PUBLICKEY : Nat := 4

/-- Auth method bit `SSH_AUTH_METHOD_HOSTBASED` (0x0008). -/
def SSH_AUTH_METHOD_HOSTBASED : Nat := 8

/-- Auth method bit `SSH_AUTH_METHOD_INTERACTIVE` (0x0010). -/
def SSH_AUTH_METHOD_INTERACTIVE : Nat := 16

/-- The `ssh_session_state_e` enum of the session state machine. -/
inductive SessionState where
  | NoState
  | Connecting
  | SocketConnected
  | BannerReceived
  | InitialKex
  | KexinitReceived
  | Dh
  | Authenticating
  | Error
  | Disconnected
deriving DecidableEq, Repr

/-- The DH handshake sub-state enum (`DH_STATE_INIT`, `DH_STATE_INIT_SENT`,
`DH_STATE_NEWKEYS_SENT`, `DH_STATE_FINISHED`). -/
inductive DhState where
  | Init
  | InitSent
  | NewkeysSent
  | Finished
deriving DecidableEq, Repr

/-- The negotiated host-key type stored in `session->hostkeys`
(`ssh_keytypes_e`): `SSH_KEYTYPE_DSS`, `SSH_KEYTYPE_RSA`, or any other
value (`Other`). -/
inductive KeyType where
  | DSS
  | RSA
  | Other
deriving DecidableEq, Repr

/-- An opaque private host key (`ssh_private_key`).  `kid` distinguishes
distinct key objects. -/
structure PrivateKey where
  ktype : KeyType
  kid : Nat
deriving DecidableEq, Repr

/-- An opaque public key (`ssh_public_key`). -/
structure PublicKey where
  pid : Nat
deriving DecidableEq, Repr

/-- One entry appended to an ssh buffer: `buffer_add_u8`,
`buffer_add_u32`, `buffer_add_ssh_string` of raw bytes, or of a C
string. -/
inductive BufEntry where
  | u8 (n : Nat)
  | u32 (n : Nat)
  | bytes (b : List Nat)
  | str (cs : List Char)
deriving DecidableEq, Repr

/-- The parts of `ssh_session` that the verified code reads or writes.
Byte strings are `List Nat`; the outbound packet buffer is a list of
`BufEntry`, and `sent` records every packet flushed by `packet_send`. -/
structure Session where
  session_state : SessionState
  dh_handshake_state : DhState
  hostkeys : KeyType
  rsa_key : Option PrivateKey
  dsa_key : Option PrivateKey
  clientbanner : Option (List Nat)
  e : Option (List Nat)
  next_server_pubkey : Option (List Nat)
  out_buffer : List BufEntry
  sent : List (List BufEntry)
  last_error : Option String
  auth_methods : Nat
  server : Bool
  version : Nat
  wanted_methods : List (Option String)
  bindaddr : Option String
  log_verbosity : Nat
  socket : Option Nat
deriving DecidableEq, Repr

/-- Modelled from the spec: `ssh_set_error` (error.c, not under src/)
records the fatal reason in the last-error slot of the session. -/
def ssh_set_error (s : Session) (msg : String) : Session :=
  { s with last_error := some msg }

/-- Modelled from the spec: `packet_send` (packet.c, not under src/) is the
PacketIO write: on success it flushes the out buffer as one wire packet and
empties it; on failure it returns `SSH_ERROR`. -/
def packet_send (ok : Bool) (s : Session) : Int × Session :=
  if ok then (SSH_OK, { s with sent := s.sent ++ [s.out_buffer], out_buffer := [] })
  else (SSH_ERROR, s)

/-- The loop body of `callback_receive_banner` (server.c).  `done` is the
already-scanned prefix of the socket buffer after its in-place mutations
(a CR is overwritten with NUL); its length is the loop index `i`.  On LF
the NUL-terminated prefix is duplicated into the client banner, the state
moves to BannerReceived and the connection callback `cb` runs; a scanned
byte at index above 127 moves the session to Error with return 0; an
exhausted buffer returns 0 with the session untouched. -/
def banner_loop (cb : Session → Session) (s : Session) :
    List Nat → List Nat → Nat × Session
  | _done, [] => (0, s)
  | done, b :: bs =>
    if b = 10 then
      let str := (done ++ [0]).takeWhile (fun c => c != 0)
      (done.length + 1,
        cb { s with clientbanner := some str,
                    session_state := SessionState.BannerReceived })
    else
      let b1 := if b = 13 then 0 else b
      if done.length > 127 then
        (0, { ssh_set_error s "Receiving banner: too large banner" with
                session_state := SessionState.Error })
      else
        banner_loop cb s (done ++ [b1]) bs

/-- Embedding of `callback_receive_banner` (server.c): scan the delivered bytes for the
banner line; returns the number of bytes consumed and the updated session.
`cb` is `session->ssh_connection_callback`, invoked once the banner is
complete. -/
def callback_receive_banner (cb : Session → Session) (s : Session)
    (data : List Nat) : Nat × Session :=
  banner_loop cb s [] data

/-- Oracle for the external crypto / packet calls made by
`dh_handshake_server` and `ssh_packet_kexdh_init`: each field delivers the
outcome of one external call (Crypto and PacketIO capabilities, and the
buffer allocations). -/
structure Crypto where
  import_e_ok : Bool
  generate_y_ok : Bool
  generate_f_ok : Bool
  get_f : Option (List Nat)
  pub_from_priv : PrivateKey → Option PublicKey
  pub_to_string : PublicKey → Option (List Nat)
  build_k_ok : Bool
  make_sessionid_ok : Bool
  sign : PrivateKey → Option (List Nat)
  buf_reply_ok : Bool
  send1_ok : Bool
  buf_newkeys_ok : Bool
  send2_ok : Bool

/-- The host-key selection switch of `dh_handshake_server`
(`switch(session->hostkeys)`): DSS picks the DSA slot, RSA the RSA slot,
anything else yields NULL. -/
def dh_select_key (s : Session) : Option PrivateKey :=
  match s.hostkeys with
  | KeyType.DSS => s.dsa_key
  | KeyType.RSA => s.rsa_key
  | KeyType.Other => none

/-- Modelled from the spec: `publickey_from_privatekey` (keys.c, not under
src/) is the KeyLoader capability deriving a public key from a private
key; with no key available it yields nothing. -/
def publickey_from_privatekey (c : Crypto) :
    Option PrivateKey → Option PublicKey
  | none => none
  | some k => c.pub_from_priv k

/-- Modelled from the spec: `ssh_sign_session_id` (dh.c, not under src/)
signs the exchange hash with the given private key using its signature
scheme; with no key it yields nothing. -/
def ssh_sign_session_id (c : Crypto) :
    Option PrivateKey → Option (List Nat)
  | none => none
  | some k => c.sign k

/-- The tail of `dh_handshake_server` after both host-key slots have been
cleared (server.c lines 385-412): write the KEXDH_REPLY packet, send it,
write NEWKEYS, send it, and advance the DH sub-state. -/
def dh_emit_reply (c : Crypto) (pubkey f sg : List Nat) (s : Session) :
    Int × Session :=
  if ¬ c.buf_reply_ok then
    (SSH_ERROR, { ssh_set_error s "Not enough space" with out_buffer := [] })
  else
    match packet_send c.send1_ok { s with out_buffer := s.out_buffer ++
      [BufEntry.u8 SSH2_MSG_KEXDH_REPLY, BufEntry.bytes pubkey,
       BufEntry.bytes f, BufEntry.bytes sg] } with
    | (rc1, s1) =>
      if rc1 = SSH_ERROR then (SSH_ERROR, s1)
      else if ¬ c.buf_newkeys_ok then (SSH_ERROR, { s1 with out_buffer := [] })
      else
        match packet_send c.send2_ok { s1 with out_buffer :=
          s1.out_buffer ++ [BufEntry.u8 SSH2_MSG_NEWKEYS] } with
        | (rc2, s2) =>
          if rc2 = SSH_ERROR then (SSH_ERROR, s2)
          else (0, { s2 with dh_handshake_state := DhState.NewkeysSent })

/-- Embedding of `dh_handshake_server` (server.c): generate `y` and `f`, select the host
key by negotiated type, derive and serialize its public key, build `K`,
compute the session id, sign it, clear both host-key slots, then emit
KEXDH_REPLY and NEWKEYS. -/
def dh_handshake_server (c : Crypto) (s : Session) : Int × Session :=
  if ¬ c.generate_y_ok then
    (SSH_ERROR, ssh_set_error s "Could not create y number")
  else if ¬ c.generate_f_ok then
    (SSH_ERROR, ssh_set_error s "Could not create f number")
  else
    match c.get_f with
    | none => (SSH_ERROR, ssh_set_error s "Could not get the f number")
    | some f =>
      match publickey_from_privatekey c (dh_select_key s) with
      | none =>
        (SSH_ERROR, ssh_set_error s
          "Could not get the public key from the private key")
      | some pub =>
        match c.pub_to_string pub with
        | none => (SSH_ERROR, ssh_set_error s "Not enough space")
        | some pubkey =>
          if ¬ c.build_k_ok then
            (SSH_ERROR, ssh_set_error
              { s with next_server_pubkey := some pubkey }
              "Could not import the public key")
          else if ¬ c.make_sessionid_ok then
            (SSH_ERROR, ssh_set_error
              { s with next_server_pubkey := some pubkey }
              "Could not create a session id")
          else
            match ssh_sign_session_id c (dh_select_key s) with
            | none =>
              (SSH_ERROR, ssh_set_error
                { s with next_server_pubkey := some pubkey }
                "Could not sign the session id")
            | some sg =>
              dh_emit_reply c pubkey f sg
                { s with next_server_pubkey := some pubkey,
                         rsa_key := none, dsa_key := none }

/-- Embedding of `ssh_packet_kexdh_init` (server.c): in any DH sub-state other than
Init the packet is only logged (`goto error`) and the callback returns
`SSH_PACKET_USED` with the session untouched; otherwise `e` is read from
the packet, imported, and `dh_handshake_server` runs (its return value is
discarded). -/
def ssh_packet_kexdh_init (c : Crypto) (s : Session)
    (packet : Option (List Nat)) : Int × Session :=
  if s.dh_handshake_state ≠ DhState.Init then (SSH_PACKET_USED, s)
  else
    match packet with
    | none => (SSH_ERROR, ssh_set_error s "No e number in client request")
    | some ev =>
      if ¬ c.import_e_ok then
        (SSH_PACKET_USED,
          { ssh_set_error s "Cannot import e number" with
              session_state := SessionState.Error })
      else
        let s := { s with e := some ev,
                          dh_handshake_state := DhState.InitSent }
        (SSH_PACKET_USED, (dh_handshake_server c s).2)

/-- A concrete all-succeed crypto oracle, used for witnesses. -/
def sampleCrypto : Crypto :=
  { import_e_ok := true
    generate_y_ok := true
    generate_f_ok := true
    get_f := some [7]
    pub_from_priv := fun _ => some ⟨9⟩
    pub_to_string := fun _ => some [1, 2]
    build_k_ok := true
    make_sessionid_ok := true
    sign := fun _ => some [3, 4]
    buf_reply_ok := true
    send1_ok := true
    buf_newkeys_ok := true
    send2_ok := true }

/-- The parts of `ssh_bind` that `ssh_bind_accept` reads. -/
structure Bind where
  bindfd : Option Nat
  bindport : Nat
  bindaddr : Option String
  dsakey : Option String
  rsakey : Option String
  wanted_methods : List (Option String)
  log_verbosity : Nat
deriving DecidableEq, Repr

/-- Oracle for the external calls made by `ssh_bind_accept`: the two
`_privatekey_from_file` loads, the OS `accept`, and the `strdup` /
`ssh_socket_new` allocations. -/
structure AcceptOracle where
  load_dsa : Option PrivateKey
  load_rsa : Option PrivateKey
  os_accept : Option Nat
  strdup_method_ok : Nat → Bool
  strdup_bindaddr_ok : Bool
  socket_new_ok : Bool

/-- Result of `ssh_bind_accept`.  Besides the return code and the updated
session, it records the error message set on the bind by code in server.c,
whether the OS-level `accept` was invoked, and (as ghost state for the
resource accounting) which private keys the call loaded and which it
released with `privatekey_free`. -/
structure AcceptResult where
  rc : Int
  session : Option Session
  bind_err : Option String
  accept_invoked : Bool
  loaded : List PrivateKey
  freed : List PrivateKey
deriving DecidableEq, Repr

/-- The keys released by `privatekey_free` on an optional key (a NULL
argument is a no-op). -/
def pkOpt : Option PrivateKey → List PrivateKey
  | none => []
  | some k => [k]

/-- The `for (i = 0; i < 10; ++i)` copy of `sshbind->wanted_methods` into
the session in `ssh_bind_accept`; `ok i` is whether the `strdup` of entry
`i` succeeds.  Returns the (possibly partially updated) method table and
whether the loop completed. -/
def copy_methods_go (ok : Nat → Bool) (bm : List (Option String)) :
    List Nat → List (Option String) → List (Option String) × Bool
  | [], sm => (sm, true)
  | i :: is, sm =>
    match bm.getD i none with
    | none => copy_methods_go ok bm is sm
    | some w =>
      if ok i then copy_methods_go ok bm is (sm.set i (some w))
      else (sm, false)

/-- Entry point of the method-copy loop over indices 0..9. -/
def copy_methods (ok : Nat → Bool) (bm sm : List (Option String)) :
    List (Option String) × Bool :=
  copy_methods_go ok bm (List.range 10) sm

/-- The key delivered by `_privatekey_from_file` for an optional key path:
nothing when no path is configured, otherwise the outcome `res` of the
load. -/
def load_key (path : Option String) (res : Option PrivateKey) :
    Option PrivateKey :=
  if path.isSome then res else none

/-- The private keys `ssh_bind_accept` loads when both loads succeed. -/
def loaded_keys (o : AcceptOracle) (b : Bind) : List PrivateKey :=
  pkOpt (load_key b.dsakey o.load_dsa) ++ pkOpt (load_key b.rsakey o.load_rsa)

/-- The session bind address after the copy step of `ssh_bind_accept`: the
old value is freed, and the strdup of the configured address (when there
is one) may fail, leaving NULL. -/
def accept_bindaddr (o : AcceptOracle) (b : Bind) : Option String :=
  match b.bindaddr with
  | none => none
  | some a => if o.strdup_bindaddr_ok then some a else none

/-- The session after the option-copy step of `ssh_bind_accept`: role set
to server, version forced to 2, and the bind method preferences duplicated
into the session (possibly only partially, when a `strdup` fails). -/
def accept_apply_methods (o : AcceptOracle) (b : Bind) (s : Session) :
    Session :=
  { s with
      server := true
      version := 2
      wanted_methods := (copy_methods o.strdup_method_ok b.wanted_methods
        s.wanted_methods).1 }

/-- The body of `ssh_bind_accept` (server.c) once the bind socket and the
session have been checked: require a host-key path, load the configured
keys, `accept` the connection, copy options into the session, attach a
fresh socket, and only then store the loaded keys into the session
host-key slots.  Every error path releases the keys loaded so far
(`privatekey_free(dsa); privatekey_free(rsa)`) and leaves the slots
untouched. -/
def ssh_bind_accept_session (o : AcceptOracle) (b : Bind) (s : Session) :
    AcceptResult :=
  if b.dsakey = none ∧ b.rsakey = none then
    { rc := SSH_ERROR, session := some s,
      bind_err := some "DSA or RSA host key file must be set before accept()",
      accept_invoked := false, loaded := [], freed := [] }
  else if b.dsakey.isSome ∧ load_key b.dsakey o.load_dsa = none then
    { rc := SSH_ERROR, session := some s, bind_err := none,
      accept_invoked := false, loaded := [], freed := [] }
  else if b.rsakey.isSome ∧ load_key b.rsakey o.load_rsa = none then
    { rc := SSH_ERROR, session := some s, bind_err := none,
      accept_invoked := false,
      loaded := pkOpt (load_key b.dsakey o.load_dsa),
      freed := pkOpt (load_key b.dsakey o.load_dsa) }
  else
    match o.os_accept with
    | none =>
      { rc := SSH_ERROR, session := some s,
        bind_err := some "Accepting a new connection",
        accept_invoked := true, loaded := loaded_keys o b,
        freed := loaded_keys o b }
    | some fd =>
      if (copy_methods o.strdup_method_ok b.wanted_methods
            s.wanted_methods).2 = false then
        { rc := SSH_ERROR,
          session := some (accept_apply_methods o b s),
          bind_err := none, accept_invoked := true,
          loaded := loaded_keys o b, freed := loaded_keys o b }
      else if b.bindaddr.isSome ∧ o.strdup_bindaddr_ok = false then
        { rc := SSH_ERROR,
          session := some { accept_apply_methods o b s with
                              bindaddr := none },
          bind_err := none, accept_invoked := true,
          loaded := loaded_keys o b, freed := loaded_keys o b }
      else if ¬ o.socket_new_ok then
        { rc := SSH_ERROR,
          session := some { accept_apply_methods o b s with
                              bindaddr := accept_bindaddr o b,
                              log_verbosity := b.log_verbosity,
                              socket := none },
          bind_err := none, accept_invoked := true,
          loaded := loaded_keys o b, freed := loaded_keys o b }
      else
        { rc := SSH_OK,
          session := some { accept_apply_methods o b s with
                              bindaddr := accept_bindaddr o b,
                              log_verbosity := b.log_verbosity,
                              socket := some fd,
                              dsa_key := load_key b.dsakey o.load_dsa,
                              rsa_key := load_key b.rsakey o.load_rsa },
          bind_err := none, accept_invoked := true,
          loaded := loaded_keys o b, freed := [] }

/-- Embedding of `ssh_bind_accept` (server.c): reject an unbound listener or a null
session, then run the per-session body. -/
def ssh_bind_accept (o : AcceptOracle) (b : Bind) (sess : Option Session) :
    AcceptResult :=
  if b.bindfd = none then
    { rc := SSH_ERROR, session := sess,
      bind_err := some "Can not accept new clients on a not bound socket.",
      accept_invoked := false, loaded := [], freed := [] }
  else
    match sess with
    | none =>
      { rc := SSH_ERROR, session := none,
        bind_err := some "session is null",
        accept_invoked := false, loaded := [], freed := [] }
    | some s => ssh_bind_accept_session o b s

/-- Oracle for the allocations of `ssh_message_auth_reply_default`: the
three `buffer_add` calls, the `ssh_string_from_char`, and the
`packet_send`. -/
structure ReplyOracle where
  buf1_ok : Bool
  string_ok : Bool
  buf2_ok : Bool
  buf3_ok : Bool
  send_ok : Bool

/-- The all-succeed reply oracle. -/
def allOkReply : ReplyOracle :=
  { buf1_ok := true, string_ok := true, buf2_ok := true, buf3_ok := true,
    send_ok := true }

/-- The `methods_c` string built by `ssh_message_auth_reply_default` by
successive `strcat`, trailing commas included, one segment per set bit of
the advertised-methods mask. -/
def auth_methods_c (m : Nat) : List Char :=
  (if m &&& SSH_AUTH_METHOD_PUBLICKEY ≠ 0 then "publickey,".toList else [])
  ++ (if m &&& SSH_AUTH_METHOD_INTERACTIVE ≠ 0 then
        "keyboard-interactive,".toList else [])
  ++ (if m &&& SSH_AUTH_METHOD_PASSWORD ≠ 0 then "password,".toList else [])
  ++ (if m &&& SSH_AUTH_METHOD_HOSTBASED ≠ 0 then "hostbased,".toList else [])

/-- Embedding of `ssh_message_auth_reply_default` (server.c): append USERAUTH_FAILURE,
default an empty advertised-methods mask to publickey|password (a mutation
of the session that persists), append the comma-joined method list with
its final comma stripped, append the partial flag, and send. -/
def ssh_message_auth_reply_default (o : ReplyOracle) (s : Session)
    (pflag : Bool) : Int × Session :=
  if ¬ o.buf1_ok then (SSH_ERROR, s)
  else
    let s := { s with out_buffer := s.out_buffer ++
      [BufEntry.u8 SSH2_MSG_USERAUTH_FAILURE] }
    let s := if s.auth_methods = 0 then
        { s with auth_methods :=
            SSH_AUTH_METHOD_PUBLICKEY ||| SSH_AUTH_METHOD_PASSWORD }
      else s
    let mstr := (auth_methods_c s.auth_methods).dropLast
    if ¬ o.string_ok then (SSH_ERROR, s)
    else if ¬ o.buf2_ok then (SSH_ERROR, s)
    else
      let s := { s with out_buffer := s.out_buffer ++ [BufEntry.str mstr] }
      if ¬ o.buf3_ok then (SSH_ERROR, s)
      else
        let s := { s with out_buffer := s.out_buffer ++
          [BufEntry.u8 (if pflag then 1 else 0)] }
        packet_send o.send_ok s

/-- A ChannelRequest message as seen by the default reply: the want-reply
flag and the remote channel id of the channel it names. -/
structure ChannelRequestMsg where
  want_reply : Bool
  remote_channel : Nat
deriving DecidableEq, Repr

/-- Embedding of `ssh_message_channel_request_reply_default` (server.c): with
want_reply set, append CHANNEL_FAILURE and the remote channel id and send;
otherwise log and return `SSH_OK` without touching the session. -/
def ssh_message_channel_request_reply_default
    (buf1_ok buf2_ok send_ok : Bool) (m : ChannelRequestMsg) (s : Session) :
    Int × Session :=
  if m.want_reply then
    if ¬ buf1_ok then (SSH_ERROR, s)
    else
      let s := { s with out_buffer := s.out_buffer ++
        [BufEntry.u8 SSH2_MSG_CHANNEL_FAILURE] }
      if ¬ buf2_ok then (SSH_ERROR, s)
      else
        packet_send send_ok { s with out_buffer := s.out_buffer ++
          [BufEntry.u32 m.remote_channel] }
  else (SSH_OK, s)

/-- Outcome of the method-duplication loop of `server_set_kex`: all ten
entries allocated; allocation failed and the cleanup returned leaving
`leaked` entries still allocated; or the cleanup loop never terminates. -/
inductive SetKexOutcome where
  | ok
  | fail (leaked : List Nat)
  | diverges
deriving DecidableEq, Repr

/-- Loop guard of the cleanup `for (j = i - 1; j <= 0; j--)` in
`server_set_kex`: the body runs while `j <= 0`.  Because `j` only
decreases, once the guard holds at entry it holds forever. -/
def cleanup_guard (j : Int) : Bool := j ≤ 0

/-- The index of the first of the ten `strdup(wanted)` calls of
`server_set_kex` that fails, if any. -/
def first_alloc_fail (alloc_ok : Nat → Bool) : Option Nat :=
  (List.range 10).find? (fun i => ¬ alloc_ok i)

/-- The method-duplication phase of `server_set_kex` (server.c lines
257-274): duplicate the ten method strings; on the first failure at index
`i`, run `for (j = i - 1; j <= 0; j--) SAFE_FREE(server->methods[j])` and
return an error.  When `i ≥ 2` the guard `j <= 0` is false at entry, the
loop body never runs, and the entries `0..i-1` stay allocated; when
`i ≤ 1` the guard holds at entry and at every later `j`, so the loop
never terminates. -/
def server_set_kex_methods (alloc_ok : Nat → Bool) : SetKexOutcome :=
  match first_alloc_fail alloc_ok with
  | none => SetKexOutcome.ok
  | some i =>
    if cleanup_guard ((i : Int) - 1) then SetKexOutcome.diverges
    else SetKexOutcome.fail (List.range i)

/-- A concrete session in the pre-banner state, used for witnesses. -/
def sampleSession : Session :=
  { session_state := SessionState.SocketConnected
    dh_handshake_state := DhState.Init
    hostkeys := KeyType.RSA
    rsa_key := some ⟨KeyType.RSA, 1⟩
    dsa_key := none
    clientbanner := none
    e := none
    next_server_pubkey := none
    out_buffer := []
    sent := []
    last_error := none
    auth_methods := 0
    server := true
    version := 2
    wanted_methods := List.replicate 10 none
    bindaddr := none
    log_verbosity := 0
    socket := some 5 }

/-- A concrete listener with no host-key path, used for witnesses. -/
def sampleBind : Bind :=
  { bindfd := some 3, bindport := 22, bindaddr := none, dsakey := none,
    rsakey := none, wanted_methods := List.replicate 10 none,
    log_verbosity := 0 }

/-- A concrete listener configured with an RSA host-key path. -/
def sampleBindRsa : Bind :=
  { sampleBind with rsakey := some "rsa.key" }

/-- A concrete all-succeed accept oracle whose RSA key load delivers a
key, used for witnesses. -/
def sampleAcceptOracle : AcceptOracle :=
  { load_dsa := none, load_rsa := some ⟨KeyType.RSA, 2⟩, os_accept := some 7,
    strdup_method_ok := fun _ => true, strdup_bindaddr_ok := true,
    socket_new_ok := true }

/-- The bytes of the banner line body `SSH-2.0-X`. -/
def sshBannerBytes : List Nat := [83, 83, 72, 45, 50, 46, 48, 45, 88]

/-! ## Helper lemmas -/

/-- The publickey and password bits together form the mask 6. -/
theorem pkpw_mask :
    SSH_AUTH_METHOD_PUBLICKEY ||| SSH_AUTH_METHOD_PASSWORD = 6 := by decide

/-- The advertised-methods string for mask 6, final comma stripped. -/
theorem methods6 :
    (auth_methods_c 6).dropLast = "publickey,password".toList := by decide

/-- Duplicating a NUL-terminated buffer whose prefix has no NUL byte
recovers exactly that prefix. -/
theorem takeWhile_nonzero (l t : List Nat) (h : ∀ b ∈ l, b ≠ 0) :
    (l ++ 0 :: t).takeWhile (fun c => c != 0) = l := by
  induction l with
  | nil => simp [List.takeWhile_cons]
  | cons a l ih =>
    have ha : a ≠ 0 := h a (by simp)
    simp [List.takeWhile_cons, ha, ih (fun b hb => h b (by simp [hb]))]

/-- Running the banner loop over a clean line body followed by CR LF
consumes the body, the CR and the LF, stores the body as the banner, and
moves the state to BannerReceived before invoking the callback. -/
theorem banner_loop_finds_lf (cb : Session → Session) (s : Session)
    (rest : List Nat) :
    ∀ pre done : List Nat, (∀ b ∈ pre, b ≠ 0 ∧ b ≠ 10 ∧ b ≠ 13) →
    (∀ b ∈ done, b ≠ 0) → done.length + pre.length ≤ 127 →
    banner_loop cb s done (pre ++ 13 :: 10 :: rest) =
      (done.length + pre.length + 2,
       cb { s with clientbanner := some (done ++ pre),
                   session_state := SessionState.BannerReceived }) := by
  intro pre
  induction pre with
  | nil =>
    intro done _ hdone hlen
    have hn : ¬ done.length > 127 := by omega
    have htw : (done ++ [0, 0]).takeWhile (fun c => c != 0) = done :=
      takeWhile_nonzero done [0] hdone
    simp [banner_loop, hn, htw]
  | cons p ps ih =>
    intro done hpre hdone hlen
    have hp := hpre p (by simp)
    have hn : ¬ done.length > 127 := by simp at hlen; omega
    have hps : ∀ b ∈ ps, b ≠ 0 ∧ b ≠ 10 ∧ b ≠ 13 :=
      fun b hb => hpre b (by simp [hb])
    have hdone2 : ∀ b ∈ done ++ [p], b ≠ 0 := by
      intro b hb
      rcases List.mem_append.1 hb with h1 | h1
      · exact hdone b h1
      · simp at h1; subst h1; exact hp.1
    have hlen2 : (done ++ [p]).length + ps.length ≤ 127 := by
      simp at hlen ⊢; omega
    simp only [List.cons_append]
    simp [banner_loop, hp.2.1, hp.2.2, hn]
    rw [ih (done ++ [p]) hps hdone2 hlen2]
    simp [List.append_assoc]
    omega

/-- Running the banner loop over a buffer that still holds at least 129
unscanned bytes with no LF among them drives the scan index past 127 and
ends in the Error state with return value 0. -/
theorem banner_loop_overflow (cb : Session → Session) (s : Session) :
    ∀ buf done : List Nat, done.length ≤ 128 →
    129 ≤ buf.length + done.length →
    (∀ b ∈ buf.take (129 - done.length), b ≠ 10) →
    banner_loop cb s done buf =
      (0, { ssh_set_error s "Receiving banner: too large banner" with
              session_state := SessionState.Error }) := by
  intro buf
  induction buf with
  | nil => intro done _ h2 _; simp at h2; omega
  | cons b bs ih =>
    intro done h1 h2 h3
    have hb : b ≠ 10 := by
      apply h3 b
      have : 0 < 129 - done.length := by omega
      cases hh : 129 - done.length with
      | zero => omega
      | succ n => simp [hh, List.take]
    by_cases hd : done.length > 127
    · simp [banner_loop, hb, hd]
    · have h1b : (done ++ [if b = 13 then 0 else b]).length ≤ 128 := by
        simp; omega
      have h2b : 129 ≤ bs.length +
          (done ++ [if b = 13 then 0 else b]).length := by
        simp at h2 ⊢; omega
      have h3b : ∀ x ∈ bs.take
          (129 - (done ++ [if b = 13 then 0 else b]).length), x ≠ 10 := by
        intro x hx
        apply h3 x
        have hlen : 129 - done.length = (129 - (done.length + 1)) + 1 := by
          omega
        simp only [List.length_append, List.length_singleton] at hx
        rw [hlen]
        simp [List.take]
        right
        simpa using hx
      simp [banner_loop, hb, hd]
      rw [ih (done ++ [if b = 13 then 0 else b]) h1b h2b h3b]

/-- The emission tail of the DH reply never touches the host-key slots. -/
theorem dh_emit_reply_keys (c : Crypto) (pubkey f sg : List Nat)
    (s : Session) :
    (dh_emit_reply c pubkey f sg s).2.rsa_key = s.rsa_key ∧
    (dh_emit_reply c pubkey f sg s).2.dsa_key = s.dsa_key := by
  rcases c with ⟨ie, gy, gf, gof, pfp, pts, bk, msid, sgn, br, s1ok, bn, s2ok⟩
  cases br <;> cases s1ok <;> cases bn <;> cases s2ok <;>
    simp [dh_emit_reply, packet_send, ssh_set_error, SSH_OK, SSH_ERROR]

/-- Every run of `dh_handshake_server` either sends nothing at all or
leaves both host-key slots empty. -/
theorem dh_handshake_server_cases (c : Crypto) (s : Session) :
    (dh_handshake_server c s).2.sent = s.sent ∨
    ((dh_handshake_server c s).2.rsa_key = none ∧
     (dh_handshake_server c s).2.dsa_key = none) := by
  unfold dh_handshake_server
  repeat' split
  all_goals try (left; rfl)
  all_goals right
  all_goals exact (dh_emit_reply_keys _ _ _ _ _)

/-- Unfolding of `ssh_bind_accept` on a non-null session. -/
theorem accept_some (o : AcceptOracle) (b : Bind) (s : Session) :
    ssh_bind_accept o b (some s) =
      if b.bindfd = none then
        { rc := SSH_ERROR, session := some s,
          bind_err := some "Can not accept new clients on a not bound socket.",
          accept_invoked := false, loaded := [], freed := [] }
      else ssh_bind_accept_session o b s := rfl

/-! ## Claim theorems -/

/-- C1: whenever `dh_handshake_server` reaches the point where the
KEXDH_REPLY packet is emitted (it sent anything at all, and the reply is
the first thing it can send), both host-key slots (`rsa_key` and
`dsa_key`) of the resulting session are cleared, so no private host-key
material remains reachable from the session. -/
theorem dh_handshake_server_clears_hostkeys (c : Crypto) (s : Session)
    (h : (dh_handshake_server c s).2.sent ≠ s.sent) :
    (dh_handshake_server c s).2.rsa_key = none ∧
    (dh_handshake_server c s).2.dsa_key = none := by
  rcases dh_handshake_server_cases c s with hs | hk
  · exact absurd hs h
  · exact hk

set_option maxRecDepth 10000 in
/-- Witness for C1: a concrete run that emits the reply ends with both
slots cleared. -/
theorem dh_handshake_server_clears_hostkeys_witness :
    (dh_handshake_server sampleCrypto sampleSession).2.rsa_key = none ∧
    (dh_handshake_server sampleCrypto sampleSession).2.dsa_key = none :=
  dh_handshake_server_clears_hostkeys sampleCrypto sampleSession (by decide)

set_option maxRecDepth 10000 in
/-- C2 counterexample: a 128-byte banner without LF does NOT move the
session to Error; the callback returns 0 and leaves the session
untouched, contradicting the claim as stated. -/
theorem callback_receive_banner_128_counterexample :
    (callback_receive_banner (fun x => x) sampleSession
        (List.replicate 128 65)).2.session_state ≠ SessionState.Error ∧
    callback_receive_banner (fun x => x) sampleSession
        (List.replicate 128 65) = (0, sampleSession) := by decide

/-- C2 (amended): the banner-too-large error fires when the scan index
exceeds 127, i.e. once at least 129 bytes are available without a LF
among the first 129; the session then moves to Error with the
banner-too-large reason and the callback returns 0. -/
theorem callback_receive_banner_too_large (cb : Session → Session)
    (s : Session) (buf : List Nat) (h1 : 129 ≤ buf.length)
    (h2 : ∀ b ∈ buf.take 129, b ≠ 10) :
    callback_receive_banner cb s buf =
      (0, { ssh_set_error s "Receiving banner: too large banner" with
              session_state := SessionState.Error }) := by
  unfold callback_receive_banner
  exact banner_loop_overflow cb s buf [] (by simp) (by simpa) (by simpa)

set_option maxRecDepth 10000 in
/-- Witness for the amended C2: 129 bytes without LF end in Error. -/
theorem callback_receive_banner_too_large_witness :
    callback_receive_banner (fun x => x) sampleSession
        (List.replicate 129 65) =
      (0,
       { ssh_set_error sampleSession "Receiving banner: too large banner" with
           session_state := SessionState.Error }) :=
  callback_receive_banner_too_large (fun x => x) sampleSession
    (List.replicate 129 65) (by decide) (by decide)

/-- C3: on a buffer whose first line is a clean body followed by CR LF
(within the length bound), the banner receiver consumes exactly up to and
including the LF (body length + 2 bytes), stores the body with CR and LF
stripped as the client banner, and sets the state to BannerReceived on
the session handed to the connection callback. -/
theorem callback_receive_banner_line (cb : Session → Session) (s : Session)
    (pre rest : List Nat) (hpre : ∀ b ∈ pre, b ≠ 0 ∧ b ≠ 10 ∧ b ≠ 13)
    (hlen : pre.length ≤ 127) :
    callback_receive_banner cb s (pre ++ 13 :: 10 :: rest) =
      (pre.length + 2,
       cb { s with clientbanner := some pre,
                   session_state := SessionState.BannerReceived }) := by
  unfold callback_receive_banner
  have := banner_loop_finds_lf cb s rest pre [] hpre (by simp) (by simpa)
  simpa using this

/-- Witness for C3: the banner `SSH-2.0-X` CR LF consumes 11 bytes and is
stored stripped. -/
theorem callback_receive_banner_line_witness :
    callback_receive_banner (fun x => x) sampleSession
        (sshBannerBytes ++ 13 :: 10 :: []) =
      (sshBannerBytes.length + 2,
       (fun x => x)
         { sampleSession with
             clientbanner := some sshBannerBytes,
             session_state := SessionState.BannerReceived }) :=
  callback_receive_banner_line (fun x => x) sampleSession sshBannerBytes []
    (by decide) (by decide)

/-- C4: an SSH_MSG_KEXDH_INIT arriving while the DH sub-state is not Init
is ignored: the callback returns SSH_PACKET_USED and the session is
entirely unchanged, so no state change and no output. -/
theorem ssh_packet_kexdh_init_ignored (c : Crypto) (s : Session)
    (packet : Option (List Nat)) (h : s.dh_handshake_state ≠ DhState.Init) :
    ssh_packet_kexdh_init c s packet = (SSH_PACKET_USED, s) := by
  unfold ssh_packet_kexdh_init
  rw [if_pos h]

/-- Witness for C4: a KEXDH_INIT in state NewkeysSent changes nothing. -/
theorem ssh_packet_kexdh_init_ignored_witness :
    ssh_packet_kexdh_init sampleCrypto
        { sampleSession with dh_handshake_state := DhState.NewkeysSent }
        (some [5]) =
      (SSH_PACKET_USED,
       { sampleSession with dh_handshake_state := DhState.NewkeysSent }) :=
  ssh_packet_kexdh_init_ignored sampleCrypto
    { sampleSession with dh_handshake_state := DhState.NewkeysSent }
    (some [5]) (by decide)

/-- C5: the signing key of the DH reply is selected by the negotiated
host-key type (ssh-dss picks the DSA slot, ssh-rsa the RSA slot), and
when the required slot is empty (or the type is neither) the handshake
fails fatally with SSH_ERROR, emitting nothing and advancing no DH
state. -/
theorem dh_handshake_server_key_selection (c : Crypto) (s : Session) :
    (s.hostkeys = KeyType.DSS → dh_select_key s = s.dsa_key) ∧
    (s.hostkeys = KeyType.RSA → dh_select_key s = s.rsa_key) ∧
    (dh_select_key s = none →
      (dh_handshake_server c s).1 = SSH_ERROR ∧
      (dh_handshake_server c s).2.sent = s.sent ∧
      (dh_handshake_server c s).2.dh_handshake_state =
        s.dh_handshake_state) := by
  refine ⟨fun h => by simp [dh_select_key, h],
          fun h => by simp [dh_select_key, h], fun h => ?_⟩
  unfold dh_handshake_server
  rw [h]
  repeat' split
  all_goals simp_all [ssh_set_error, publickey_from_privatekey]

/-- Witness for C5: with ssh-rsa negotiated but the RSA slot empty, the
handshake returns SSH_ERROR. -/
theorem dh_handshake_server_key_selection_witness :
    (dh_handshake_server sampleCrypto
        { sampleSession with rsa_key := none }).1 = SSH_ERROR :=
  ((dh_handshake_server_key_selection sampleCrypto
    { sampleSession with rsa_key := none }).2.2 (by decide)).1

/-- C6: on a bound listener with a non-null session but neither an RSA
nor a DSA host-key path configured, accept fails with the missing host
key error and the OS-level accept is never invoked, so no pending
connection is consumed. -/
theorem ssh_bind_accept_missing_hostkey (o : AcceptOracle) (b : Bind)
    (s : Session) (hfd : b.bindfd ≠ none) (hd : b.dsakey = none)
    (hr : b.rsakey = none) :
    (ssh_bind_accept o b (some s)).rc = SSH_ERROR ∧
    (ssh_bind_accept o b (some s)).bind_err =
      some "DSA or RSA host key file must be set before accept()" ∧
    (ssh_bind_accept o b (some s)).accept_invoked = false := by
  rw [accept_some, if_neg hfd]
  unfold ssh_bind_accept_session
  simp [hd, hr]

/-- Witness for C6: a concrete keyless listener fails without accepting. -/
theorem ssh_bind_accept_missing_hostkey_witness :
    (ssh_bind_accept sampleAcceptOracle sampleBind (some sampleSession)).rc
        = SSH_ERROR ∧
    (ssh_bind_accept sampleAcceptOracle sampleBind
        (some sampleSession)).bind_err
        = some "DSA or RSA host key file must be set before accept()" ∧
    (ssh_bind_accept sampleAcceptOracle sampleBind
        (some sampleSession)).accept_invoked = false :=
  ssh_bind_accept_missing_hostkey sampleAcceptOracle sampleBind sampleSession
    (by decide) (by decide) (by decide)

/-- C7: the default reply to a ChannelRequest with want_reply unset is a
no-op returning SSH_OK: the session (state, buffers, output) is returned
unchanged. -/
theorem channel_request_reply_default_noop (b1 b2 sd : Bool)
    (m : ChannelRequestMsg) (s : Session) (h : m.want_reply = false) :
    ssh_message_channel_request_reply_default b1 b2 sd m s = (SSH_OK, s) := by
  unfold ssh_message_channel_request_reply_default
  simp [h]

/-- Witness for C7: a concrete want_reply = false request is a no-op. -/
theorem channel_request_reply_default_noop_witness :
    ssh_message_channel_request_reply_default true true true
      ⟨false, 4⟩ sampleSession = (SSH_OK, sampleSession) :=
  channel_request_reply_default_noop true true true ⟨false, 4⟩ sampleSession
    (by decide)

/-- C8 (code bug): when the strdup of method entry 2 fails in
`server_set_kex`, the cleanup loop `for (j = i - 1; j <= 0; j--)` runs
zero iterations, so the previously allocated entries 0 and 1 are leaked
rather than freed as the claim requires. -/
theorem server_set_kex_methods_leaks :
    server_set_kex_methods (fun i => i != 2) = SetKexOutcome.fail [0, 1] ∧
    ([0, 1] : List Nat) ≠ [] := by decide

/-- C9: on every error return of `ssh_bind_accept` the session host-key
slots are unmodified and every key loaded during the call has been
released, while on success the loaded keys are stored into the slots and
nothing is released. -/
theorem ssh_bind_accept_key_hygiene (o : AcceptOracle) (b : Bind)
    (s : Session) : ∀ r, ssh_bind_accept o b (some s) = r →
    ((r.rc ≠ SSH_OK →
      (∃ s2, r.session = some s2 ∧
        s2.dsa_key = s.dsa_key ∧ s2.rsa_key = s.rsa_key) ∧
      r.freed = r.loaded) ∧
    (r.rc = SSH_OK →
      (∃ s2, r.session = some s2 ∧
        s2.dsa_key = load_key b.dsakey o.load_dsa ∧
        s2.rsa_key = load_key b.rsakey o.load_rsa) ∧
      r.freed = [])) := by
  intro r hE
  rw [accept_some] at hE
  unfold ssh_bind_accept_session at hE
  repeat' split at hE
  all_goals subst hE
  all_goals refine ⟨fun h1 => ?_, fun h2 => ?_⟩
  all_goals first
    | exact absurd rfl h1
    | exact ⟨⟨_, rfl, rfl, rfl⟩, rfl⟩
    | (exfalso; simp [SSH_ERROR, SSH_OK] at h2)

/-- Witness for C9: a successful concrete accept stores the loaded RSA key
into the session and frees nothing. -/
theorem ssh_bind_accept_key_hygiene_witness :
    (∃ s2, (ssh_bind_accept sampleAcceptOracle sampleBindRsa
        (some sampleSession)).session = some s2 ∧
      s2.dsa_key = load_key sampleBindRsa.dsakey sampleAcceptOracle.load_dsa ∧
      s2.rsa_key = load_key sampleBindRsa.rsakey
        sampleAcceptOracle.load_rsa) ∧
    (ssh_bind_accept sampleAcceptOracle sampleBindRsa
        (some sampleSession)).freed = [] :=
  (ssh_bind_accept_key_hygiene sampleAcceptOracle sampleBindRsa sampleSession
    (ssh_bind_accept sampleAcceptOracle sampleBindRsa (some sampleSession))
    rfl).2 (by decide)

/-- C10: when the advertised auth-methods mask is 0 as the default auth
failure reply is built, the session mask is mutated to
publickey|password and persists: a subsequent default reply advertises
exactly the string publickey,password from the stored mask. -/
theorem auth_reply_default_mask_persists (s : Session) (pf : Bool)
    (h : s.auth_methods = 0) :
    (ssh_message_auth_reply_default allOkReply s pf).2.auth_methods =
      (SSH_AUTH_METHOD_PUBLICKEY ||| SSH_AUTH_METHOD_PASSWORD) ∧
    (ssh_message_auth_reply_default allOkReply
        (ssh_message_auth_reply_default allOkReply s pf).2 false).2.sent =
      (ssh_message_auth_reply_default allOkReply s pf).2.sent ++
        [[BufEntry.u8 SSH2_MSG_USERAUTH_FAILURE,
          BufEntry.str "publickey,password".toList, BufEntry.u8 0]] := by
  simp [ssh_message_auth_reply_default, allOkReply, packet_send, h,
        pkpw_mask, methods6, SSH_OK, SSH_ERROR]

/-- Witness for C10: a concrete session with mask 0 ends with mask 6. -/
theorem auth_reply_default_mask_persists_witness :
    (ssh_message_auth_reply_default allOkReply sampleSession
        false).2.auth_methods =
      (SSH_AUTH_METHOD_PUBLICKEY ||| SSH_AUTH_METHOD_PASSWORD) :=
  (auth_reply_default_mask_persists sampleSession false (by decide)).1

end Libssh
